import Mathlib

set_option maxRecDepth 100000

/-!
Verification of the AzSRE-Agent decision core against its specification.

The definitions below are a shallow embedding of the Python source:
`app/core/kql_templates.py` (sanitizer and KQL template engine),
`app/graph/nodes/infra.py` (metric threshold gate), and
`app/graph/nodes/triage.py` (layered alert classifier), together with the
step-list behaviour of the remaining pipeline nodes.  External collaborators
(the LLM chains, the Azure metric source and the log query executor) are
modelled as function parameters, mirroring how the code consumes their
results.  Machine floats are modelled by rationals: every numeric literal
the code compares against (90, 90.01, 0) and every value the metric
formatter emits (two-decimal strings) is exactly representable, so ordering
comparisons agree with the Python float semantics on all relevant inputs.
-/

/-! ## Python string primitives

Character-level models of the Python builtins used by the source:
`str.strip`, the regex class `\s`, `in` (substring test), `str.startswith`,
`str.lower`/`str.upper` (ASCII range; the source only feeds ASCII keys and
service names through them), and `float()` on finite decimal literals.
-/

/-- The set of characters matched by Python's regex class `\s` on `str`
(equivalently the characters for which `str.isspace()` holds):
tab through carriage return, the file/group/record/unit separators,
space, NEL, NBSP, and the Unicode space/line/paragraph separators. -/
def pyIsSpace (c : Char) : Bool :=
  (9 ≤ c.toNat && c.toNat ≤ 13) || (28 ≤ c.toNat && c.toNat ≤ 32) ||
  c.toNat = 133 || c.toNat = 160 || c.toNat = 5760 ||
  (8192 ≤ c.toNat && c.toNat ≤ 8202) || c.toNat = 8232 || c.toNat = 8233 ||
  c.toNat = 8239 || c.toNat = 8287 || c.toNat = 12288

/-- Python `str.strip()` with no argument: remove leading and trailing
whitespace characters. -/
def pyStrip (s : String) : String :=
  String.mk (((s.data.dropWhile pyIsSpace).reverse.dropWhile pyIsSpace).reverse)

/-- Does `p` occur at the start of `s`?  (List-level helper.) -/
def listLeads : List Char → List Char → Bool
  | [], _ => true
  | _ :: _, [] => false
  | a :: as, b :: bs => a = b && listLeads as bs

/-- Does `p` occur as a contiguous sublist of `s`?  (List-level helper.) -/
def listInfix (p : List Char) : List Char → Bool
  | [] => listLeads p []
  | s@(_ :: t) => listLeads p s || listInfix p t

/-- Python `pat in s` (substring containment). -/
def strContains (s pat : String) : Bool :=
  listInfix pat.data s.data

/-- Python `s.startswith(pat)`. -/
def strStarts (s pat : String) : Bool :=
  listLeads pat.data s.data

/-- ASCII lowercasing of one character. -/
def pyLowerChar (c : Char) : Char :=
  if 65 ≤ c.toNat ∧ c.toNat ≤ 90 then Char.ofNat (c.toNat + 32) else c

/-- Python `str.lower()`.  The source only lowercases ASCII template keys,
classifier keywords and service names, where ASCII lowercasing coincides
with Python. -/
def pyLower (s : String) : String := String.mk (s.data.map pyLowerChar)

/-- ASCII uppercasing of one character. -/
def pyUpperChar (c : Char) : Char :=
  if 97 ≤ c.toNat ∧ c.toNat ≤ 122 then Char.ofNat (c.toNat - 32) else c

/-- Python `str.upper()` (ASCII range, as above). -/
def pyUpper (s : String) : String := String.mk (s.data.map pyUpperChar)

/-- Fuel-indexed splitter: cut `s` at every occurrence of `sep`,
left to right, non-overlapping.  The fuel is instantiated with the length
of `s`, which is enough since every step consumes at least one character. -/
def splitAux (sep : List Char) : Nat → List Char → List Char → List (List Char)
  | _, [], acc => [acc.reverse]
  | 0, s, acc => [acc.reverse ++ s]
  | fuel + 1, s@(c :: t), acc =>
      if listLeads sep s then acc.reverse :: splitAux sep fuel (s.drop sep.length) []
      else splitAux sep fuel t (c :: acc)

/-- Python `s.split(sep)` for a non-empty separator. -/
def strSplit (s sep : String) : List String :=
  (splitAux sep.data s.data.length s.data []).map String.mk

/-- Fuel-indexed replacement of every occurrence of `pat` by `rep`,
left to right, non-overlapping. -/
def replaceAux (pat rep : List Char) : Nat → List Char → List Char
  | _, [] => []
  | 0, s => s
  | fuel + 1, s@(c :: t) =>
      if pat ≠ [] && listLeads pat s then rep ++ replaceAux pat rep fuel (s.drop pat.length)
      else c :: replaceAux pat rep fuel t

/-- Python `s.replace(pat, rep)` for a non-empty pattern (the source only
replaces non-empty patterns). -/
def strReplace (s pat rep : String) : String :=
  String.mk (replaceAux pat.data rep.data s.data.length s.data)

/-- Exact rational numbers as integer pairs, kept executable so that the
kernel can evaluate witnesses.  Every constructor used below produces a
positive denominator, and the order relations are cross-multiplication,
so a `Frac` denotes the exact rational `num / den`.  Python's IEEE doubles
are modelled by these exact values; for every comparison the code performs
(thresholds 90 and 0 against two/four-decimal readings) the rounded double
and the exact rational lie on the same side of the threshold. -/
structure Frac where
  num : ℤ
  den : ℤ
deriving DecidableEq

/-- The integer `n` as a fraction. -/
def Frac.ofInt (n : ℤ) : Frac := ⟨n, 1⟩

/-- Exact addition. -/
def Frac.add (a b : Frac) : Frac := ⟨a.num * b.den + b.num * a.den, a.den * b.den⟩

/-- Exact multiplication. -/
def Frac.mul (a b : Frac) : Frac := ⟨a.num * b.num, a.den * b.den⟩

/-- The power `10 ^ z` for an integer exponent. -/
def Frac.pow10 : ℤ → Frac
  | Int.ofNat n => ⟨10 ^ n, 1⟩
  | Int.negSucc n => ⟨1, 10 ^ (n + 1)⟩

/-- Order on fractions with positive denominators (cross-multiplication). -/
def Frac.le (a b : Frac) : Bool := decide (a.num * b.den ≤ b.num * a.den)

/-- Strict order on fractions with positive denominators. -/
def Frac.lt (a b : Frac) : Bool := decide (a.num * b.den < b.num * a.den)

/-- Value equality of fractions with positive denominators. -/
def Frac.eqv (a b : Frac) : Bool := decide (a.num * b.den = b.num * a.den)

/-- The rational number a fraction denotes (used only in statements). -/
def Frac.toRat (a : Frac) : ℚ := (a.num : ℚ) / (a.den : ℚ)

/-- Consume a Python `digitpart` (digits with single underscores allowed
between digits) from the front of a list, accumulating the value and the
number of digits consumed.  An underscore not followed by a digit is left
unconsumed, which makes the surrounding parse fail exactly as `float()`
does. -/
def digitPartAux : List Char → Nat → Nat → Nat × Nat × List Char
  | [], acc, n => (acc, n, [])
  | [c], acc, n =>
      if c.isDigit then (acc * 10 + (c.toNat - 48), n + 1, []) else (acc, n, [c])
  | c :: d :: rest, acc, n =>
      if c.isDigit then digitPartAux (d :: rest) (acc * 10 + (c.toNat - 48)) (n + 1)
      else if c = '_' && d.isDigit then digitPartAux rest (acc * 10 + (d.toNat - 48)) (n + 1)
      else (acc, n, c :: d :: rest)

/-- Parse a `digitpart`; fails unless the list starts with a digit. -/
def takeDigitPart (cs : List Char) : Option (Nat × Nat × List Char) :=
  match cs with
  | c :: _ => if c.isDigit then some (digitPartAux cs 0 0) else none
  | [] => none

/-- Parse the unsigned mantissa of a Python float literal:
`digitpart [. [digitpart]]` or `. digitpart`. -/
def parseMantissa (cs : List Char) : Option (Frac × List Char) :=
  match takeDigitPart cs with
  | some (ip, _, rest) =>
      match rest with
      | '.' :: r2 =>
          match takeDigitPart r2 with
          | some (fp, fn, r3) => some (Frac.add (Frac.ofInt ip) ⟨fp, 10 ^ fn⟩, r3)
          | none => some (Frac.ofInt ip, r2)
      | _ => some (Frac.ofInt ip, rest)
  | none =>
      match cs with
      | '.' :: r2 =>
          match takeDigitPart r2 with
          | some (fp, fn, r3) => some (⟨fp, 10 ^ fn⟩, r3)
          | none => none
      | _ => none

/-- The exponent digits of a Python float literal, after the sign: the
remaining input must be exactly a `digitpart`. -/
def expTail (m : Frac) (es : ℤ) (r2 : List Char) : Option Frac :=
  match takeDigitPart r2 with
  | some (ev, _, r3) =>
      if r3 = [] then some (Frac.mul m (Frac.pow10 (es * ev))) else none
  | none => none

/-- Parse an optional exponent `[(e|E) [sign] digitpart]`; the whole input
must be consumed. -/
def parseExpAndEnd (m : Frac) : List Char → Option Frac
  | [] => some m
  | c :: r =>
      if c = 'e' || c = 'E' then
        match r with
        | '+' :: t => expTail m 1 t
        | '-' :: t => expTail m (-1) t
        | _ => expTail m 1 r
      else none

/-- Mantissa and exponent with the sign already consumed. -/
def pyFloatCore (sgn : ℤ) (cs : List Char) : Option Frac :=
  match parseMantissa cs with
  | some (m, rest) =>
      match parseExpAndEnd m rest with
      | some v => some (Frac.mul (Frac.ofInt sgn) v)
      | none => none
  | none => none

/-- Python `float(s)` on finite decimal literals: optional surrounding
whitespace, optional sign, mantissa, optional exponent.  The `inf`/`nan`
spellings and non-ASCII digits are not modelled; the metric source only
ever formats finite two/four-decimal ASCII numbers. -/
def pyFloat (s : String) : Option Frac :=
  match (pyStrip s).data with
  | '+' :: r => pyFloatCore 1 r
  | '-' :: r => pyFloatCore (-1) r
  | cs => pyFloatCore 1 cs

/-! ## Sanitizer — `sanitize_resource_name` (`app/core/kql_templates.py`)

The Python function raises `ValueError` on rejection; the embedding returns
`Except String String`.  The checks run in source order: emptiness, length,
the dangerous-character loop, the comment-token loop, then the whitelist
regex (letters, digits, dot, underscore, the whitespace class, slash and
hyphen, one or more times, anchored).  The regex is modelled as an
all-characters test: `re.match` anchors at the start, the input is
non-empty, and the trailing anchor `$`
can only differ from end-of-string when a trailing newline is present,
which the dangerous-character loop has already excluded. -/

def MAX_RESOURCE_NAME_LENGTH : Nat := 256

/-- One character of the source's whitelist class: ASCII letter, digit,
dot, underscore, slash, hyphen, or the Python regex whitespace class.
Note that the whitespace class is wider than a literal space. -/
def whitelistChar (c : Char) : Bool :=
  c.isAlpha || c.isDigit || c = '.' || c = '_' || c = '/' || c = '-' || pyIsSpace c

def sanitize_resource_name (resource_name : String) : Except String String :=
  if resource_name = "" then
    Except.error "Resource name cannot be empty"
  else if MAX_RESOURCE_NAME_LENGTH < resource_name.length then
    Except.error "Resource name exceeds maximum length"
  else if strContains resource_name "\n" then
    Except.error "Resource name contains dangerous character"
  else if strContains resource_name "\r" then
    Except.error "Resource name contains dangerous character"
  else if strContains resource_name "|" then
    Except.error "Resource name contains dangerous character"
  else if strContains resource_name "\\" then
    Except.error "Resource name contains dangerous character"
  else if strContains resource_name "//" then
    Except.error "Resource name contains comment token"
  else if strContains resource_name "/*" then
    Except.error "Resource name contains comment token"
  else if strContains resource_name "*/" then
    Except.error "Resource name contains comment token"
  else if resource_name.data.all whitelistChar then
    Except.ok resource_name
  else
    Except.error "Resource name contains invalid characters"

/-! ## Query template engine — `TEMPLATES` and `get_template`
(`app/core/kql_templates.py`)

The template bodies are the byte-exact Python triple-quoted literals
(including trailing spaces inside the union branches and the four-space
indentation before the closing quotes); single quotes are written with the
`\x27` escape.  The dict is keyed by the `KQLTemplate` enum plus one extra
string key for the unknown-resource variant, modelled as a function on the
enum plus a separate constant. -/

inductive KQLTemplate where
  | CONTAINER_LOGS
  | APP_FAILURES
  | SQL_ERRORS
deriving DecidableEq

def TEMPLATES : KQLTemplate → String
  | KQLTemplate.CONTAINER_LOGS =>
      "\n        ContainerAppConsoleLogs" ++
      "\n        | where TimeGenerated > ago(1h)" ++
      "\n        | where ContainerAppName has {resource_name}" ++
      "\n        | project TimeGenerated, ContainerAppName, Log_s" ++
      "\n        | top 20 by TimeGenerated desc" ++
      "\n    "
  | KQLTemplate.APP_FAILURES =>
      "\n        union " ++
      "\n            (AppExceptions " ++
      "\n             | where TimeGenerated > ago(1h)" ++
      "\n             | project TimeGenerated, Type=\x27Crash\x27, Message=OuterMessage, Details=Method, AppRoleName)," ++
      "\n            (AppRequests " ++
      "\n             | where TimeGenerated > ago(1h) and Success == false " ++
      "\n             | project TimeGenerated, Type=\x27HTTP Failure\x27, Message=strcat(ResultCode, \x27 - \x27, Url), Details=Name, AppRoleName)," ++
      "\n            (AppTraces " ++
      "\n             | where TimeGenerated > ago(1h) and SeverityLevel >= 3 " ++
      "\n             | project TimeGenerated, Type=\x27Error Log\x27, Message=Message, Details=OperationName, AppRoleName)" ++
      "\n        | where AppRoleName has {resource_name}" ++
      "\n        | top 20 by TimeGenerated desc" ++
      "\n    "
  | KQLTemplate.SQL_ERRORS =>
      "\n        AzureDiagnostics" ++
      "\n        | where TimeGenerated > ago(1h)" ++
      "\n        | where Resource has {resource_name}" ++
      "\n        | where Category == \"SQLErrors\" or Category == \"Timeouts\"" ++
      "\n        | project TimeGenerated, error_number_d, Message" ++
      "\n        | top 20 by TimeGenerated desc" ++
      "\n    "

/-- The dict entry under the extra string key for the unknown resource:
the application-failures union filtered on an empty `AppRoleName`. -/
def APP_FAILURES_UNKNOWN_TEMPLATE : String :=
  "\n        union " ++
  "\n            (AppExceptions " ++
  "\n             | where TimeGenerated > ago(1h)" ++
  "\n             | project TimeGenerated, Type=\x27Crash\x27, Message=OuterMessage, Details=Method, AppRoleName)," ++
  "\n            (AppRequests " ++
  "\n             | where TimeGenerated > ago(1h) and Success == false " ++
  "\n             | project TimeGenerated, Type=\x27HTTP Failure\x27, Message=strcat(ResultCode, \x27 - \x27, Url), Details=Name, AppRoleName)," ++
  "\n            (AppTraces " ++
  "\n             | where TimeGenerated > ago(1h) and SeverityLevel >= 3 " ++
  "\n             | project TimeGenerated, Type=\x27Error Log\x27, Message=Message, Details=OperationName, AppRoleName)" ++
  "\n        | where isempty(AppRoleName)" ++
  "\n        | top 20 by TimeGenerated desc" ++
  "\n    "

/-- Key normalization of `get_template`: the exact (already lowercased)
enum values first, then the ordered substring fallbacks, then the fixed
container default. -/
def resolveTemplateKey (template_key : String) : KQLTemplate :=
  let tl := pyLower template_key
  if tl = "container_logs" then KQLTemplate.CONTAINER_LOGS
  else if tl = "app_failures" then KQLTemplate.APP_FAILURES
  else if tl = "sql_errors" then KQLTemplate.SQL_ERRORS
  else if strContains tl "container" then KQLTemplate.CONTAINER_LOGS
  else if strContains tl "app" then KQLTemplate.APP_FAILURES
  else if strContains tl "sql" then KQLTemplate.SQL_ERRORS
  else KQLTemplate.CONTAINER_LOGS

/-- Escape for KQL string literals (double every embedded double quote)
and wrap in double quotes. -/
def kqlQuote (s : String) : String :=
  "\"" ++ strReplace s "\"" "\"\"" ++ "\""

/-- `get_template(template_key, resource_name)`.  The unknown-resource
special case runs before sanitization and template selection, exactly as
in the source; `ValueError` from the sanitizer propagates as `error`. -/
def get_template (template_key resource_name : String) : Except String String :=
  if pyLower resource_name = "unknown" then
    if strContains (pyLower template_key) "app" then
      Except.ok (pyStrip APP_FAILURES_UNKNOWN_TEMPLATE)
    else
      match sanitize_resource_name resource_name with
      | Except.error e => Except.error e
      | Except.ok sanitized =>
          Except.ok (pyStrip (strReplace (TEMPLATES (resolveTemplateKey template_key))
            "{resource_name}" (kqlQuote sanitized)))
  else
    match sanitize_resource_name resource_name with
    | Except.error e => Except.error e
    | Except.ok sanitized =>
        Except.ok (pyStrip (strReplace (TEMPLATES (resolveTemplateKey template_key))
          "{resource_name}" (kqlQuote sanitized)))

/-! ## Metric threshold gate — `app/graph/nodes/infra.py`

`is_valid_metric_response` and `parse_metric_value` are translated
directly; `infra_node` is modelled as a function of the alert's target-id
list, a fetch oracle standing for `metrics_tool.get_metric` (`none` means
the call raised, which the source converts to a "Collection failed"
report entry), the selector-chain result (`none` means the chain raised,
which the source converts to the empty key) and the log query executor. -/

/-- The sentinel prefixes/substrings produced by the metric source. -/
def errorPatterns : List String :=
  ["Error fetching", "No data found", "No recorded values", "No data points"]

/-- `is_valid_metric_response(metric_str)`: non-empty, no error pattern,
and a `Current:` reading present. -/
def is_valid_metric_response (metric_str : String) : Bool :=
  if metric_str = "" then false
  else
    !(errorPatterns.any (fun p => strStarts metric_str p || strContains metric_str p)) &&
      strContains metric_str "Current:"

/-- `parse_metric_value(metric_str)`: extract the value after `Current:`
on the first line that carries one, strip it, drop the unit suffixes, and
parse it as a float; every failure path returns the sentinel `-1.0`. -/
def parse_metric_value (metric_str : String) : Frac :=
  match (strSplit metric_str "\n").find? (fun line => strContains line "Current:") with
  | none => Frac.ofInt (-1)
  | some line =>
      match pyFloat (strReplace (strReplace (strReplace (strReplace
          (pyStrip ((strSplit line "Current:").getD 1 ""))
          "%" "") " Cores" "") " GiB" "") " MiB" "") with
      | some v => v
      | none => Frac.ofInt (-1)

/-- One threshold rule of `infra_node`: the value is only parsed and
compared when the response is valid, and the comparison requires a
non-negative parsed value strictly above the threshold. -/
def metricTriggers (threshold : Frac) (metric_str : String) : Bool :=
  is_valid_metric_response metric_str &&
    (Frac.le (Frac.ofInt 0) (parse_metric_value metric_str) &&
     Frac.lt threshold (parse_metric_value metric_str))

/-- The report entry one metric contributes: the fetched string, or the
"Collection failed" line when the fetch raised. -/
def metricEntry (fetch : String → Option String) (name : String) : String :=
  match fetch name with
  | some s => s
  | none => name ++ ": Collection failed"

/-- The escalation contribution of one metric: a raised fetch contributes
nothing. -/
def metricTrigger (fetch : String → Option String) (name : String) (threshold : Frac) : Bool :=
  match fetch name with
  | some s => metricTriggers threshold s
  | none => false

/-- Observable output of `infra_node`: the metric report lines, the gate
decision, the rendered KQL query when one is rendered, the log text, and
the returned investigation-steps list. -/
structure InfraOutput where
  metricsReport : List String
  needsLogs : Bool
  renderedQuery : Option (Except String String)
  logsText : String
  steps : List String

/-- `infra_node` with its external collaborators as parameters.
`alertTargetIDs` is the alert's target list; `fetch` is the metric source
(by metric name, for the alert's resource); `selectorResult` is the
selector chain's answer; `runQuery` is the log query executor. -/
def infra_node_model (alertTargetIDs : List String) (fetch : String → Option String)
    (selectorResult : Option String) (runQuery : String → String)
    (steps0 : List String) : InfraOutput :=
  let resource_id := alertTargetIDs.headD "Unknown"
  let resource_name :=
    if strContains resource_id "/" then (strSplit resource_id "/").getLastD ""
    else resource_id
  let metricsReport :=
    if resource_id = "Unknown" then ([] : List String)
    else
      [metricEntry fetch "CpuPercentage", metricEntry fetch "MemoryPercentage",
       metricEntry fetch "RestartCount", metricEntry fetch "Requests"]
  let needsLogs :=
    decide (resource_id ≠ "Unknown") &&
      (metricTrigger fetch "CpuPercentage" (Frac.ofInt 90) ||
       metricTrigger fetch "MemoryPercentage" (Frac.ofInt 90) ||
       metricTrigger fetch "RestartCount" (Frac.ofInt 0))
  if needsLogs then
    let template_key := pyLower (pyStrip (selectorResult.getD ""))
    let rendered := get_template template_key resource_name
    let logsText :=
      match rendered with
      | Except.ok q => runQuery q
      | Except.error e => "Template Error: " ++ e
    { metricsReport := metricsReport
      needsLogs := needsLogs
      renderedQuery := some rendered
      logsText := logsText
      steps := steps0 ++ ["Checked Metrics", "Ran Template: " ++ template_key] }
  else
    { metricsReport := metricsReport
      needsLogs := needsLogs
      renderedQuery := none
      logsText := "Logs skipped (Metrics healthy, below 90% threshold)."
      steps := steps0 ++ ["Checked Metrics", "Skipped Logs (Healthy)"] }

/-! ## Layered classifier — `triage_node` (`app/graph/nodes/triage.py`)

The keyword tables are byte-exact copies (including the source's duplicate
entries in the infrastructure metric-name list).  The pre-check chain, the
LLM post-processing and the keyword fallback safety net are translated
directly; the LLM call is a parameter (`none` means the call raised, which
the source turns into the invalid label `UNKNOWN`). -/

def app_keywords : List String :=
  ["exception", "failed requests", "error", "500", "403", "404", "timeout",
   "anomaly", "smart detection"]

def infra_metric_names : List String :=
  ["cpu usage", "cpuusage", "cpu percentage", "cpupercentage", "cpupercentage",
   "memory usage", "memoryusage", "memory percentage", "memorypercentage",
   "memory working set", "working set", "disk usage", "diskusage",
   "cpupercentage", "memorypercentage", "processor time", "processor time percentage"]

def infra_keywords : List String :=
  ["vm", "node", "capacity", "container crashed", "node unhealthy"]

def database_keywords : List String :=
  ["sql", "cosmos", "redis", "dtu", "database", "db"]

def network_keywords : List String :=
  ["dns", "vnet", "firewall", "ip", "load balancer"]

/-- `combined_text`: the lowercased rule name, description and metric name
joined by spaces and stripped (an absent metric name contributes the empty
string, exactly as lowercasing it does). -/
def combined_text (rule_name description metric_name : String) : String :=
  pyStrip (pyLower rule_name ++ " " ++ pyLower description ++ " " ++ pyLower metric_name)

/-- Does any keyword of `kws` occur in `t`? -/
def anyKeyword (kws : List String) (t : String) : Bool :=
  kws.any (fun k => strContains t k)

/-- The deterministic pre-check (step 0 of `triage_node`): `some label`
when a hard classification is forced, `none` when the decision is left to
the LLM. -/
def triage_precheck (rule_name description metric_name monitoring_service : String) :
    Option String :=
  let combined := combined_text rule_name description metric_name
  let service_l := pyLower monitoring_service
  let metric_l := pyLower metric_name
  if anyKeyword app_keywords combined then
    if strContains service_l "application insights" || strContains service_l "application" then
      some "APP"
    else none
  else if metric_name ≠ "" && anyKeyword infra_metric_names metric_l then
    if strContains service_l "platform" || strContains service_l "infrastructure" then
      some "INFRA"
    else none
  else if anyKeyword database_keywords combined then some "DATABASE"
  else if anyKeyword network_keywords combined then some "NETWORK"
  else if anyKeyword infra_keywords combined then
    if strContains service_l "platform" || strContains service_l "infrastructure" then
      some "INFRA"
    else none
  else none

/-- Post-processing of the raw LLM answer: strip, uppercase, drop dots and
colons; a raised call yields the invalid label `UNKNOWN`. -/
def llm_label (llmResult : Option String) : String :=
  match llmResult with
  | some raw => strReplace (strReplace (pyUpper (pyStrip raw)) "." "") ":" ""
  | none => "UNKNOWN"

def valid_categories : List String := ["INFRA", "DATABASE", "NETWORK", "APP"]

/-- The keyword fallback safety net (step 2 of `triage_node`), applied when
the label so far is not one of the four valid categories. -/
def triage_fallback (rule_name description metric_name monitoring_service : String) : String :=
  let combined := combined_text rule_name description metric_name
  let service_l := pyLower monitoring_service
  let metric_l := pyLower metric_name
  if anyKeyword app_keywords combined && strContains service_l "application" then "APP"
  else if anyKeyword database_keywords combined then "DATABASE"
  else if metric_name ≠ "" && anyKeyword infra_metric_names metric_l then
    if strContains service_l "platform" then "INFRA" else "APP"
  else if anyKeyword network_keywords combined then "NETWORK"
  else if strContains service_l "application" then "APP"
  else "APP"

/-- The full classification of `triage_node`: pre-check, then the LLM
(post-processed), then the safety net for invalid labels. -/
def triage_classify (rule_name description metric_name monitoring_service : String)
    (llmResult : Option String) : String :=
  let classification :=
    match triage_precheck rule_name description metric_name monitoring_service with
    | some c => c
    | none => llm_label llmResult
  if valid_categories.contains classification then classification
  else triage_fallback rule_name description metric_name monitoring_service

/-- The resource type recorded in the triage step: the path segment after
`/providers/` in the first target id, or `Unknown`. -/
def triage_resource_type (alertTargetIDs : List String) : String :=
  let target_id := alertTargetIDs.headD ""
  if strContains target_id "/providers/" then
    (strSplit ((strSplit target_id "/providers/").getD 1 "") "/").headD ""
  else "Unknown"

/-- The investigation-steps list returned by `triage_node`. -/
def triage_node_steps (rule_name description metric_name monitoring_service : String)
    (llmResult : Option String) (alertTargetIDs : List String)
    (steps0 : List String) : List String :=
  steps0 ++
    ["Triaged as " ++ triage_classify rule_name description metric_name monitoring_service llmResult ++
     " (Resource: " ++ triage_resource_type alertTargetIDs ++ ")"]

/-! ## Step-list behaviour of the remaining nodes

Each node of the graph returns `state["investigation_steps"]` plus its own
new entries (`app/graph/nodes/database.py`, `app/graph/nodes/app.py`,
`app/graph/workflow.py`, `app/graph/nodes/verify.py`).  The text of the
appended entries is fixed except for the verify node's status report,
which is computed from external I/O and taken here as a parameter. -/

/-- Steps returned by `db_node`. -/
def db_node_steps (steps0 : List String) : List String :=
  steps0 ++ ["Checked SQL Metrics (DTU, CPU)"]

/-- Steps returned by `app_node` (its successful return; a sanitizer
rejection raises out of the node before any return). -/
def app_node_steps (steps0 : List String) : List String :=
  steps0 ++
    ["Ran Impact Analysis (ProblemId grouping)",
     "Ran Intelligent Pattern Recognition",
     "Checked Dependency Failures",
     "Checked Recent Configuration Changes"]

/-- Steps returned by `network_placeholder_node`. -/
def network_placeholder_steps (steps0 : List String) : List String :=
  steps0 ++ ["Network investigation skipped (pending implementation)"]

/-- Steps returned by `verify_node`; `status_report` is the textual
verification outcome assembled from the external metric and log calls. -/
def verify_node_steps (steps0 : List String) (status_report : String) : List String :=
  steps0 ++ ["Verification: " ++ status_report]

/-! ## Helper lemmas -/

/-- Denominators produced by `parseMantissa` are positive. -/
theorem parseMantissa_den_pos (cs : List Char) (m : Frac) (rest : List Char)
    (h : parseMantissa cs = some (m, rest)) : 0 < m.den := by
  unfold parseMantissa at h
  split at h
  · split at h
    · split at h
      · cases h <;> simp [Frac.add, Frac.ofInt] <;> positivity
      · cases h <;> simp [Frac.ofInt]
    · cases h <;> simp [Frac.ofInt]
  · split at h
    · split at h
      · cases h <;> simp <;> positivity
      · cases h
    · cases h

/-- Denominators produced by `Frac.pow10` are positive. -/
theorem pow10_den_pos (z : ℤ) : 0 < (Frac.pow10 z).den := by
  cases z <;> simp [Frac.pow10] <;> positivity

/-- `expTail` preserves denominator positivity. -/
theorem expTail_den_pos (m : Frac) (es : ℤ) (r2 : List Char) (v : Frac)
    (hm : 0 < m.den) (h : expTail m es r2 = some v) : 0 < v.den := by
  unfold expTail at h
  split at h
  · split at h
    · cases h
      simp only [Frac.mul]
      exact mul_pos hm (pow10_den_pos _)
    · cases h
  · cases h

/-- `parseExpAndEnd` preserves denominator positivity. -/
theorem parseExpAndEnd_den_pos (m v : Frac) (cs : List Char)
    (hm : 0 < m.den) (h : parseExpAndEnd m cs = some v) : 0 < v.den := by
  unfold parseExpAndEnd at h
  split at h
  · cases h
    exact hm
  · split at h
    · split at h <;> exact expTail_den_pos _ _ _ _ hm h
    · cases h

/-- Denominators produced by `pyFloatCore` are positive. -/
theorem pyFloatCore_den_pos (sgn : ℤ) (cs : List Char) (v : Frac)
    (h : pyFloatCore sgn cs = some v) : 0 < v.den := by
  unfold pyFloatCore at h
  split at h
  · rename_i m rest hmant
    split at h
    · rename_i w hexp
      cases h
      have hw := parseExpAndEnd_den_pos m w rest (parseMantissa_den_pos cs m rest hmant) hexp
      simpa [Frac.mul, Frac.ofInt] using hw
    · cases h
  · cases h

/-- Denominators produced by `pyFloat` are positive. -/
theorem pyFloat_den_pos (s : String) (v : Frac) (h : pyFloat s = some v) : 0 < v.den := by
  unfold pyFloat at h
  split at h <;> exact pyFloatCore_den_pos _ _ _ h

/-- Denominators produced by `parse_metric_value` are positive. -/
theorem parse_metric_value_den_pos (s : String) : 0 < (parse_metric_value s).den := by
  unfold parse_metric_value
  split
  · simp [Frac.ofInt]
  · split
    · rename_i v hv
      exact pyFloat_den_pos _ v hv
    · simp [Frac.ofInt]

/-- The gate decision of `infra_node_model`, in closed form: the resource
check and the disjunction of the three threshold rules (shared helper). -/
theorem infra_needsLogs_spec (ids : List String) (fetch : String → Option String)
    (sel : Option String) (runQ : String → String) (steps0 : List String) :
    (infra_node_model ids fetch sel runQ steps0).needsLogs =
      (decide (ids.headD "Unknown" ≠ "Unknown") &&
       (metricTrigger fetch "CpuPercentage" (Frac.ofInt 90) ||
        metricTrigger fetch "MemoryPercentage" (Frac.ofInt 90) ||
        metricTrigger fetch "RestartCount" (Frac.ofInt 0))) := by
  simp only [infra_node_model]
  split <;> rfl

/-- A metric encoded as a sentinel — an invalid response string or a
negative parsed value — never satisfies a threshold rule (shared helper). -/
theorem metricTriggers_sentinel (thr : Frac) (s : String)
    (h : is_valid_metric_response s = false ∨
         Frac.lt (parse_metric_value s) (Frac.ofInt 0) = true) :
    metricTriggers thr s = false := by
  rcases h with h | h
  · simp [metricTriggers, h]
  · have hle : Frac.le (Frac.ofInt 0) (parse_metric_value s) = false := by
      simp only [Frac.le, Frac.lt, Frac.ofInt] at h ⊢
      simp only [decide_eq_true_eq] at h
      simp only [decide_eq_false_iff_not]
      omega
    simp [metricTriggers, hle]

/-! ## Claim theorems -/

/-- Claim C2: sanitize fails (returns no sanitized value) whenever the
input is empty, longer than 256 characters, or contains a newline,
carriage return, pipe, backslash, or one of the comment tokens. -/
theorem sanitize_rejects_dangerous_inputs (s : String)
    (h : s = "" ∨ MAX_RESOURCE_NAME_LENGTH < s.length ∨
         strContains s "\n" = true ∨ strContains s "\r" = true ∨
         strContains s "|" = true ∨ strContains s "\\" = true ∨
         strContains s "//" = true ∨ strContains s "/*" = true ∨
         strContains s "*/" = true) :
    (sanitize_resource_name s).isOk = false := by
  unfold sanitize_resource_name
  split_ifs with h1 h2 h3 h4 h5 h6 h7 h8 h9 h10 <;> try rfl
  rcases h with h | h | h | h | h | h | h | h | h <;> simp_all

/-- Witness for C2 at the concrete input `bad|name`. -/
theorem sanitize_rejects_dangerous_inputs_witness :
    (sanitize_resource_name "bad|name").isOk = false :=
  sanitize_rejects_dangerous_inputs "bad|name" (by decide)

/-- Claim C3 (failing input): the sanitizer accepts a string containing a
tab character, although tab is outside the documented whitelist
(letters, digits, dot, underscore, slash, space, hyphen) — the regex uses
the whitespace class where its own documentation says "spaces". -/
theorem sanitize_accepts_tab_character :
    sanitize_resource_name "a\tb" = Except.ok "a\tb" := rfl

/-- Claim C1 (counterexample): for the template key `container_logs`, a
resource name equal to "Unknown" is embedded as the wrapped filter value
instead of producing an empty-field filter. -/
theorem container_logs_unknown_embeds_wrapped_name :
    (match get_template "container_logs" "Unknown" with
     | Except.ok q => strContains q "ContainerAppName has \"Unknown\""
     | Except.error _ => false) = true := by decide

/-- Claim C1 (amended): for every template key containing "app"
(case-insensitively), rendering with a resource name equal
case-insensitively to "unknown" produces the query that filters on an
empty `AppRoleName` and never embeds the wrapped name "Unknown". -/
theorem app_keys_unknown_targets_empty_field (template_key resource_name : String)
    (hname : pyLower resource_name = "unknown")
    (hkey : strContains (pyLower template_key) "app" = true) :
    ∃ q, get_template template_key resource_name = Except.ok q ∧
      strContains q "isempty(AppRoleName)" = true ∧
      strContains q "Unknown" = false := by
  refine ⟨pyStrip APP_FAILURES_UNKNOWN_TEMPLATE, ?_, by decide, by decide⟩
  simp [get_template, hname, hkey]

/-- Witness for the amended C1 at key `app_failures`, name `Unknown`. -/
theorem app_keys_unknown_targets_empty_field_witness :
    ∃ q, get_template "app_failures" "Unknown" = Except.ok q ∧
      strContains q "isempty(AppRoleName)" = true ∧
      strContains q "Unknown" = false :=
  app_keys_unknown_targets_empty_field "app_failures" "Unknown" (by decide) (by decide)

/-- Claim C4: a reading of exactly 90 does not trigger a 90-threshold rule;
a genuine (valid-response) reading strictly above 90 does; a genuine
restart reading strictly above 0 triggers the restart rule; the gate
decision is exactly the disjunction of the three rules behind the resource
check; and the Requests metric never affects the decision. -/
theorem infra_gate_threshold_behavior (s : String) (ids : List String)
    (fetch fetch' : String → Option String) (sel : Option String)
    (runQ : String → String) (steps0 : List String) :
    (Frac.eqv (parse_metric_value s) (Frac.ofInt 90) = true →
      metricTriggers (Frac.ofInt 90) s = false)
    ∧ (is_valid_metric_response s = true →
        Frac.lt (Frac.ofInt 90) (parse_metric_value s) = true →
        metricTriggers (Frac.ofInt 90) s = true)
    ∧ (is_valid_metric_response s = true →
        Frac.lt (Frac.ofInt 0) (parse_metric_value s) = true →
        metricTriggers (Frac.ofInt 0) s = true)
    ∧ ((infra_node_model ids fetch sel runQ steps0).needsLogs =
        (decide (ids.headD "Unknown" ≠ "Unknown") &&
         (metricTrigger fetch "CpuPercentage" (Frac.ofInt 90) ||
          metricTrigger fetch "MemoryPercentage" (Frac.ofInt 90) ||
          metricTrigger fetch "RestartCount" (Frac.ofInt 0))))
    ∧ ((∀ n, n ≠ "Requests" → fetch n = fetch' n) →
        (infra_node_model ids fetch sel runQ steps0).needsLogs =
          (infra_node_model ids fetch' sel runQ steps0).needsLogs) := by
  refine ⟨?_, ?_, ?_, infra_needsLogs_spec ids fetch sel runQ steps0, ?_⟩
  · intro h
    have hlt : Frac.lt (Frac.ofInt 90) (parse_metric_value s) = false := by
      simp only [Frac.eqv, Frac.ofInt, decide_eq_true_eq] at h
      simp only [Frac.lt, Frac.ofInt, decide_eq_false_iff_not]
      omega
    simp [metricTriggers, hlt]
  · intro hv hlt
    have hd := parse_metric_value_den_pos s
    have hle : Frac.le (Frac.ofInt 0) (parse_metric_value s) = true := by
      simp only [Frac.lt, Frac.ofInt, decide_eq_true_eq] at hlt
      simp only [Frac.le, Frac.ofInt, decide_eq_true_eq]
      nlinarith
    simp [metricTriggers, hv, hle, hlt]
  · intro hv hlt
    have hle : Frac.le (Frac.ofInt 0) (parse_metric_value s) = true := by
      simp only [Frac.lt, Frac.ofInt, decide_eq_true_eq] at hlt
      simp only [Frac.le, Frac.ofInt, decide_eq_true_eq]
      omega
    simp [metricTriggers, hv, hle, hlt]
  · intro hag
    rw [infra_needsLogs_spec, infra_needsLogs_spec]
    have h1 := hag "CpuPercentage" (by decide)
    have h2 := hag "MemoryPercentage" (by decide)
    have h3 := hag "RestartCount" (by decide)
    unfold metricTrigger
    rw [h1, h2, h3]

/-- Witness for C4: a 90.00 reading does not trigger, a 90.01 reading
does, and a restart count of 2 triggers. -/
theorem infra_gate_threshold_behavior_witness :
    metricTriggers (Frac.ofInt 90)
      "CpuPercentage (Last 15m):\n  Current: 90.00%\n  Average: 85.00%" = false ∧
    metricTriggers (Frac.ofInt 90)
      "CpuPercentage (Last 15m):\n  Current: 90.01%\n  Average: 85.00%" = true ∧
    metricTriggers (Frac.ofInt 0)
      "RestartCount (Last 15m):\n  Current: 2.00\n  Average: 1.00" = true := by
  refine ⟨?_, ?_, ?_⟩
  · exact (infra_gate_threshold_behavior
      "CpuPercentage (Last 15m):\n  Current: 90.00%\n  Average: 85.00%"
      [] (fun _ => none) (fun _ => none) none id []).1 (by decide)
  · exact (infra_gate_threshold_behavior
      "CpuPercentage (Last 15m):\n  Current: 90.01%\n  Average: 85.00%"
      [] (fun _ => none) (fun _ => none) none id []).2.1 (by decide) (by decide)
  · exact (infra_gate_threshold_behavior
      "RestartCount (Last 15m):\n  Current: 2.00\n  Average: 1.00"
      [] (fun _ => none) (fun _ => none) none id []).2.2.1 (by decide) (by decide)

/-- Claim C5: a sentinel metric — an invalid response string or a negative
parsed value — never satisfies a threshold rule, and when every fetched
metric is sentinel-encoded the gate never requires deep log
investigation. -/
theorem sentinel_never_triggers_escalation (s : String) (thr : Frac)
    (ids : List String) (fetch : String → Option String) (sel : Option String)
    (runQ : String → String) (steps0 : List String) :
    (is_valid_metric_response s = false ∨
       Frac.lt (parse_metric_value s) (Frac.ofInt 0) = true →
      metricTriggers thr s = false)
    ∧ ((∀ n m, fetch n = some m →
          is_valid_metric_response m = false ∨
          Frac.lt (parse_metric_value m) (Frac.ofInt 0) = true) →
        (infra_node_model ids fetch sel runQ steps0).needsLogs = false) := by
  constructor
  · exact metricTriggers_sentinel thr s
  · intro hall
    rw [infra_needsLogs_spec]
    have htrig : ∀ name thr', metricTrigger fetch name thr' = false := by
      intro name thr'
      unfold metricTrigger
      cases hf : fetch name with
      | none => rfl
      | some m => exact metricTriggers_sentinel thr' m (hall name m hf)
    simp [htrig]

/-- Witness for C5: with every metric answering a "no data" sentinel the
gate stays off, and an error-string metric never triggers. -/
theorem sentinel_never_triggers_escalation_witness :
    metricTriggers (Frac.ofInt 90) "No data found for CpuPercentage" = false ∧
    (infra_node_model ["res-1"] (fun _ => some "No data found for CpuPercentage")
      none id []).needsLogs = false := by
  constructor
  · exact (sentinel_never_triggers_escalation "No data found for CpuPercentage"
      (Frac.ofInt 90) [] (fun _ => none) none id []).1 (by decide)
  · refine (sentinel_never_triggers_escalation "" (Frac.ofInt 0) ["res-1"]
      (fun _ => some "No data found for CpuPercentage") none id []).2 ?_
    intro n m h
    cases h
    exact Or.inl (by decide)

/-- Claim C6 (counterexample): the key `dependency_failures` matches none
of the fallback substrings, so it renders the container-logs default
template, not the application-failures query. -/
theorem dependency_failures_resolves_to_container_default :
    (match get_template "dependency_failures" "myapp",
           get_template "container_logs" "myapp" with
     | Except.ok a, Except.ok b =>
         decide (a = b) && strContains a "ContainerAppConsoleLogs" &&
           !(strContains a "AppExceptions")
     | _, _ => false) = true := by decide

/-- Claim C6 (amended): for every resource name the sanitizer accepts, the
keys `app_impact_analysis` and `app_patterns` render exactly the same
query as `app_failures`, while `dependency_failures` still renders
successfully (falling back to the container default); no key in the family
makes rendering fail. -/
theorem app_synonym_keys_resolve_uniformly (resource_name : String)
    (h : (sanitize_resource_name resource_name).isOk = true) :
    get_template "app_impact_analysis" resource_name =
      get_template "app_failures" resource_name ∧
    get_template "app_patterns" resource_name =
      get_template "app_failures" resource_name ∧
    (get_template "dependency_failures" resource_name).isOk = true := by
  have k1 : resolveTemplateKey "app_impact_analysis" = resolveTemplateKey "app_failures" := by
    decide
  have k2 : resolveTemplateKey "app_patterns" = resolveTemplateKey "app_failures" := by decide
  have a1 : strContains (pyLower "app_impact_analysis") "app" = true := by decide
  have a2 : strContains (pyLower "app_patterns") "app" = true := by decide
  have a3 : strContains (pyLower "app_failures") "app" = true := by decide
  have a4 : strContains (pyLower "dependency_failures") "app" = false := by decide
  refine ⟨?_, ?_, ?_⟩
  · by_cases hu : pyLower resource_name = "unknown"
    · simp [get_template, hu, a1, a3]
    · simp [get_template, hu, k1]
  · by_cases hu : pyLower resource_name = "unknown"
    · simp [get_template, hu, a2, a3]
    · simp [get_template, hu, k2]
  · cases hs : sanitize_resource_name resource_name with
    | error e =>
        rw [hs] at h
        simp [Except.isOk, Except.toBool] at h
    | ok v =>
        by_cases hu : pyLower resource_name = "unknown"
        · simp [get_template, hu, a4, hs, Except.isOk, Except.toBool]
        · simp [get_template, hu, hs, Except.isOk, Except.toBool]

/-- Witness for the amended C6 at the resource name `myapp`. -/
theorem app_synonym_keys_resolve_uniformly_witness :
    get_template "app_impact_analysis" "myapp" = get_template "app_failures" "myapp" ∧
    get_template "app_patterns" "myapp" = get_template "app_failures" "myapp" ∧
    (get_template "dependency_failures" "myapp").isOk = true :=
  app_synonym_keys_resolve_uniformly "myapp" (by decide)

/-- Claim C7 (counterexample): an alert whose text carries both an
app-failure keyword ("timeout") and a database keyword ("database") but
whose monitoring service is not an application source makes the pre-check
return no decision, and the classification then follows the external
call's answer instead of deterministically being DATABASE. -/
theorem app_keyword_without_app_service_invokes_llm :
    triage_precheck "database timeout" "" "" "Platform" = none ∧
    triage_classify "database timeout" "" "" "Platform" (some "NETWORK") = "NETWORK" := by
  constructor <;> decide

/-- Claim C7 (amended): when the combined text matches an app-failure
keyword but the monitoring service indicates no application source, the
deterministic pre-check yields no classification (the external call is
consulted); the database keyword then forces DATABASE only through the
fallback, i.e. when the external call fails or returns an invalid label. -/
theorem app_keyword_without_app_service_defers (rule desc metric service : String)
    (happ : anyKeyword app_keywords (combined_text rule desc metric) = true)
    (hsvc : (strContains (pyLower service) "application insights" ||
             strContains (pyLower service) "application") = false)
    (hdb : anyKeyword database_keywords (combined_text rule desc metric) = true) :
    triage_precheck rule desc metric service = none ∧
    triage_classify rule desc metric service none = "DATABASE" := by
  have hsvc2 : strContains (pyLower service) "application" = false :=
    (Bool.or_eq_false_iff.mp hsvc).2
  have hpre : triage_precheck rule desc metric service = none := by
    simp [triage_precheck, happ, hsvc]
  refine ⟨hpre, ?_⟩
  unfold triage_classify
  rw [hpre]
  have hval : valid_categories.contains (llm_label none) = false := by decide
  simp only [hval, Bool.false_eq_true, if_false]
  unfold triage_fallback
  simp [happ, hsvc2, hdb]

/-- Witness for the amended C7: rule "database timeout" on a Platform
alert with a failed external call classifies as DATABASE through the
fallback, with the pre-check abstaining. -/
theorem app_keyword_without_app_service_defers_witness :
    triage_precheck "database timeout" "" "" "Platform" = none ∧
    triage_classify "database timeout" "" "" "Platform" none = "DATABASE" :=
  app_keyword_without_app_service_defers "database timeout" "" "" "Platform"
    (by decide) (by decide) (by decide)

/-- Claim C8: when the combined text matches both a database and a network
keyword and neither earlier layer fires (no app-failure keyword, no
infrastructure metric-name hit), the pre-check fires at the database layer
and the classification is DATABASE regardless of the external call. -/
theorem database_precedes_network (rule desc metric service : String)
    (llmResult : Option String)
    (hdb : anyKeyword database_keywords (combined_text rule desc metric) = true)
    (hnet : anyKeyword network_keywords (combined_text rule desc metric) = true)
    (happ : anyKeyword app_keywords (combined_text rule desc metric) = false)
    (hmet : metric = "" ∨ anyKeyword infra_metric_names (pyLower metric) = false) :
    triage_precheck rule desc metric service = some "DATABASE" ∧
    triage_classify rule desc metric service llmResult = "DATABASE" := by
  have hpre : triage_precheck rule desc metric service = some "DATABASE" := by
    rcases hmet with hm | hm
    · subst hm
      simp [triage_precheck, happ, hdb]
    · simp [triage_precheck, happ, hdb, hm]
  refine ⟨hpre, ?_⟩
  unfold triage_classify
  simp only [hpre]
  have hval : valid_categories.contains "DATABASE" = true := by decide
  exact if_pos hval

/-- Witness for C8: the rule "sql dns outage" matches both keyword
families and classifies as DATABASE even when the external call would say
NETWORK. -/
theorem database_precedes_network_witness :
    triage_precheck "sql dns outage" "" "" "Azure" = some "DATABASE" ∧
    triage_classify "sql dns outage" "" "" "Azure" (some "NETWORK") = "DATABASE" :=
  database_precedes_network "sql dns outage" "" "" "Azure" (some "NETWORK")
    (by decide) (by decide) (by decide) (by decide)

/-- Claim C9: every pipeline node — triage, the infra, database and app
specialists, the network placeholder and verify — returns an
investigation-steps list that is the incoming list with new entries
appended at the end. -/
theorem investigation_steps_append_only (rule desc metric service : String)
    (llmResult : Option String) (ids : List String)
    (fetch : String → Option String) (sel : Option String) (runQ : String → String)
    (status_report : String) (steps0 : List String) :
    (∃ t, triage_node_steps rule desc metric service llmResult ids steps0 = steps0 ++ t) ∧
    (∃ t, (infra_node_model ids fetch sel runQ steps0).steps = steps0 ++ t) ∧
    (∃ t, db_node_steps steps0 = steps0 ++ t) ∧
    (∃ t, app_node_steps steps0 = steps0 ++ t) ∧
    (∃ t, network_placeholder_steps steps0 = steps0 ++ t) ∧
    (∃ t, verify_node_steps steps0 status_report = steps0 ++ t) := by
  refine ⟨⟨_, rfl⟩, ?_, ⟨_, rfl⟩, ⟨_, rfl⟩, ⟨_, rfl⟩, ⟨_, rfl⟩⟩
  simp only [infra_node_model]
  split
  · exact ⟨_, rfl⟩
  · exact ⟨_, rfl⟩

/-- Claim C10: with an empty target-id list the infra node fetches no
metrics (and its behaviour does not depend on the metric source, the
selector or the query executor at all), the gate stays off, no query is
rendered, and the trail records the metrics check and the healthy skip. -/
theorem empty_target_ids_skips_investigation
    (fetch fetch' : String → Option String) (sel sel' : Option String)
    (runQ runQ' : String → String) (steps0 : List String) :
    (infra_node_model [] fetch sel runQ steps0).metricsReport = [] ∧
    (infra_node_model [] fetch sel runQ steps0).needsLogs = false ∧
    (infra_node_model [] fetch sel runQ steps0).renderedQuery = none ∧
    (infra_node_model [] fetch sel runQ steps0).logsText =
      "Logs skipped (Metrics healthy, below 90% threshold)." ∧
    (infra_node_model [] fetch sel runQ steps0).steps =
      steps0 ++ ["Checked Metrics", "Skipped Logs (Healthy)"] ∧
    infra_node_model [] fetch sel runQ steps0 = infra_node_model [] fetch' sel' runQ' steps0 :=
  ⟨rfl, rfl, rfl, rfl, rfl, rfl⟩
